import Mathlib

/-!
Shallow embedding of the dictionary-plus record reconciliation layer
(src/src/actions/index.ts together with the table declarations in
db/tables.ts).

Modelling conventions:
- Timestamps are natural numbers; each action invocation reads the clock
  once, receiving a single `now` parameter (the handler's `new Date()`
  calls all happen within one invocation).
- Auto-increment ids are naturals, tracked per table by a counter in the
  store; the database assigns `nextXId` to an inserted row and bumps the
  counter.
- JSON payloads are modelled as opaque strings.
- The authenticated-user context (`context.locals.user`) is an
  `Option String` carrying the user id, or `none` when unauthenticated.
- zod input validation (`z.string().min(1)`) runs before the handler, so
  an empty required string yields a `validation` error before anything
  else.
- drizzle semantics used by the handlers: `update().set(values)` skips
  columns whose value is `undefined` (leaving the stored column intact)
  and applies every defined column to every row matched by the `where`
  clause; `insert().values(...)` stores the given values, with an absent
  optional column stored as none. `.returning()` destructured as
  `[row]` yields the (first) affected row.
- `if (input.id)` is JavaScript truthiness: `undefined` and `0` are
  falsy, every other integer id is truthy.
-/

deriving instance DecidableEq for Except

/-- The JS nullish-coalescing operator `a ?? b` on optional values. -/
def coalesce {α : Type} : Option α → Option α → Option α
  | some x, _ => some x
  | none, b => b

/-- JS truthiness of the optional integer id field. -/
def truthy : Option Nat → Bool
  | none => false
  | some n => n != 0

/-- The `familiarity` enum column of UserWordNotes. -/
inductive Familiarity where
  | new
  | learning
  | familiar
  | mastered
deriving Repr, DecidableEq

/-- Error kinds raised via ActionError (§7 of the design). -/
inductive ErrKind where
  | unauthorized
  | notFound
  | validation
deriving Repr, DecidableEq

/-- A row of the DictionaryEntries table (db/tables.ts). -/
structure DictionaryEntry where
  id : Nat
  term : String
  language : String
  «lemma» : Option String
  payload : Option String
  partOfSpeech : Option String
  fetchedAt : Nat
  createdAt : Nat
  updatedAt : Nat
deriving Repr, DecidableEq

/-- A row of the EntryVariants table. -/
structure EntryVariant where
  id : Nat
  entryId : Nat
  variant : String
  variantType : Option String
  createdAt : Nat
deriving Repr, DecidableEq

/-- A row of the UserWordNotes table. -/
structure UserWordNote where
  id : Nat
  userId : String
  entryId : Nat
  tags : Option String
  note : Option String
  exampleSentence : Option String
  isStarred : Bool
  familiarity : Familiarity
  createdAt : Nat
  updatedAt : Nat
deriving Repr, DecidableEq

/-- A row of the LookupHistory table. -/
structure LookupRecord where
  id : Nat
  userId : Option String
  term : String
  language : String
  entryId : Option Nat
  lookedAt : Nat
  source : Option String
  context : Option String
deriving Repr, DecidableEq

/-- The whole database: four tables plus their auto-increment counters. -/
structure Store where
  entries : List DictionaryEntry
  variants : List EntryVariant
  notes : List UserWordNote
  history : List LookupRecord
  nextEntryId : Nat
  nextVariantId : Nat
  nextNoteId : Nat
  nextHistoryId : Nat
deriving Repr, DecidableEq

/-- Input shape of upsertEntry's zod schema. -/
structure UpsertEntryInput where
  id : Option Nat
  term : String
  language : Option String
  «lemma» : Option String
  payload : Option String
  partOfSpeech : Option String
  fetchedAt : Option Nat
deriving Repr, DecidableEq

/-- Input shape of addVariant's zod schema. -/
structure AddVariantInput where
  entryId : Nat
  variant : String
  variantType : Option String
deriving Repr, DecidableEq

/-- Input shape of saveUserNote's zod schema. -/
structure SaveUserNoteInput where
  entryId : Nat
  tags : Option String
  note : Option String
  exampleSentence : Option String
  isStarred : Option Bool
  familiarity : Option Familiarity
deriving Repr, DecidableEq

/-- Input shape of logLookup's zod schema. -/
structure LogLookupInput where
  term : String
  language : Option String
  entryId : Option Nat
  source : Option String
  context : Option String
deriving Repr, DecidableEq

/-- `db.select().from(DictionaryEntries).where(eq(id, i)).limit(1)` destructured. -/
def findEntry (s : Store) (i : Nat) : Option DictionaryEntry :=
  (s.entries.filter (fun e => e.id == i)).head?

/-- The where clause `and(eq(UserWordNotes.entryId, eid), eq(UserWordNotes.userId, uid))`
as a row predicate. -/
def pairFilter (eid : Nat) (uid : String) (n : UserWordNote) : Bool :=
  n.entryId == eid && n.userId == uid

/-- `db.select().from(UserWordNotes).where(and(eq(entryId, eid), eq(userId, uid))).limit(1)`. -/
def findNote (s : Store) (eid : Nat) (uid : String) : Option UserWordNote :=
  (s.notes.filter (pairFilter eid uid)).head?

/-- Effect of `update(DictionaryEntries).set(baseValues)` on one matched row:
every always-defined column of upsertEntry's `baseValues` is applied, and the
possibly-undefined columns (`lemma`, `payload`, `partOfSpeech`, passed straight
from the input) are skipped by drizzle when undefined, keeping the row's value. -/
def entryUpdateRow (input : UpsertEntryInput) (now : Nat) (e : DictionaryEntry) : DictionaryEntry :=
  { e with
    term := input.term
    language := input.language.getD "en"
    «lemma» := coalesce input.«lemma» e.«lemma»
    payload := coalesce input.payload e.payload
    partOfSpeech := coalesce input.partOfSpeech e.partOfSpeech
    fetchedAt := input.fetchedAt.getD now
    createdAt := now
    updatedAt := now }

/-- Row stored by `insert(DictionaryEntries).values(baseValues)`. -/
def insertEntryRow (input : UpsertEntryInput) (now : Nat) (newId : Nat) : DictionaryEntry :=
  { id := newId
    term := input.term
    language := input.language.getD "en"
    «lemma» := input.«lemma»
    payload := input.payload
    partOfSpeech := input.partOfSpeech
    fetchedAt := input.fetchedAt.getD now
    createdAt := now
    updatedAt := now }

/-- The upsertEntry action handler. Requires no authentication. -/
def upsertEntry (s : Store) (input : UpsertEntryInput) (now : Nat) :
    Except ErrKind DictionaryEntry × Store :=
  if input.term = "" then (.error .validation, s)
  else if truthy input.id then
    let i := input.id.getD 0
    match findEntry s i with
    | none => (.error .notFound, s)
    | some existing =>
      let entries := s.entries.map (fun e => if e.id == i then entryUpdateRow input now e else e)
      (.ok (entryUpdateRow input now existing), { s with entries := entries })
  else
    let e := insertEntryRow input now s.nextEntryId
    (.ok e, { s with entries := s.entries ++ [e], nextEntryId := s.nextEntryId + 1 })

/-- The addVariant action handler. Requires no authentication;
checks that the referenced entry exists, then always inserts. -/
def addVariant (s : Store) (input : AddVariantInput) (now : Nat) :
    Except ErrKind EntryVariant × Store :=
  if input.variant = "" then (.error .validation, s)
  else
    match findEntry s input.entryId with
    | none => (.error .notFound, s)
    | some _ =>
      let v : EntryVariant :=
        { id := s.nextVariantId
          entryId := input.entryId
          variant := input.variant
          variantType := input.variantType
          createdAt := now }
      (.ok v, { s with variants := s.variants ++ [v], nextVariantId := s.nextVariantId + 1 })

/-- saveUserNote's `baseValues` object: per-field `input.f ?? existing?.f ?? default`
resolution, with `createdAt` taken from the existing row when there is one and
`updatedAt` always stamped with the current time. (The row id is not part of
the values; insert and update supply it separately.) -/
structure NoteValues where
  entryId : Nat
  userId : String
  tags : Option String
  note : Option String
  exampleSentence : Option String
  isStarred : Bool
  familiarity : Familiarity
  createdAt : Nat
  updatedAt : Nat
deriving Repr, DecidableEq

/-- Computes saveUserNote's `baseValues` from the input, the authenticated user
and the result of identity resolution. -/
def noteBaseValues (input : SaveUserNoteInput) (uid : String)
    (existing? : Option UserWordNote) (now : Nat) : NoteValues :=
  { entryId := input.entryId
    userId := uid
    tags := coalesce input.tags (existing?.bind (fun e => e.tags))
    note := coalesce input.note (existing?.bind (fun e => e.note))
    exampleSentence := coalesce input.exampleSentence (existing?.bind (fun e => e.exampleSentence))
    isStarred := input.isStarred.getD ((existing?.map (fun e => e.isStarred)).getD false)
    familiarity := input.familiarity.getD ((existing?.map (fun e => e.familiarity)).getD .new)
    createdAt := (existing?.map (fun e => e.createdAt)).getD now
    updatedAt := now }

/-- Effect of `update(UserWordNotes).set(baseValues)` on one matched row;
the possibly-undefined optional text columns are skipped by drizzle when
undefined, keeping the row's stored value. -/
def setNoteRow (b : NoteValues) (n : UserWordNote) : UserWordNote :=
  { n with
    entryId := b.entryId
    userId := b.userId
    tags := coalesce b.tags n.tags
    note := coalesce b.note n.note
    exampleSentence := coalesce b.exampleSentence n.exampleSentence
    isStarred := b.isStarred
    familiarity := b.familiarity
    createdAt := b.createdAt
    updatedAt := b.updatedAt }

/-- Row stored by `insert(UserWordNotes).values(baseValues)`. -/
def insertNoteRow (b : NoteValues) (newId : Nat) : UserWordNote :=
  { id := newId
    entryId := b.entryId
    userId := b.userId
    tags := b.tags
    note := b.note
    exampleSentence := b.exampleSentence
    isStarred := b.isStarred
    familiarity := b.familiarity
    createdAt := b.createdAt
    updatedAt := b.updatedAt }

/-- The saveUserNote action handler: requireUser, entry existence check,
identity resolution on the (entryId, userId) pair, merge, then update the
existing row or insert a fresh one. -/
def saveUserNote (user? : Option String) (s : Store) (input : SaveUserNoteInput) (now : Nat) :
    Except ErrKind UserWordNote × Store :=
  match user? with
  | none => (.error .unauthorized, s)
  | some uid =>
    match findEntry s input.entryId with
    | none => (.error .notFound, s)
    | some _ =>
      let existing? := findNote s input.entryId uid
      let b := noteBaseValues input uid existing? now
      match existing? with
      | some ex =>
        let notes := s.notes.map (fun n => if n.id == ex.id then setNoteRow b n else n)
        (.ok (setNoteRow b ex), { s with notes := notes })
      | none =>
        let n := insertNoteRow b s.nextNoteId
        (.ok n, { s with notes := s.notes ++ [n], nextNoteId := s.nextNoteId + 1 })

/-- The listUserNotes action handler: requireUser, then a read filtered to the
caller's userId. -/
def listUserNotes (user? : Option String) (s : Store) :
    Except ErrKind (List UserWordNote) × Store :=
  match user? with
  | none => (.error .unauthorized, s)
  | some uid => (.ok (s.notes.filter (fun n => n.userId == uid)), s)

/-- The logLookup action handler: requireUser, then always insert one row. -/
def logLookup (user? : Option String) (s : Store) (input : LogLookupInput) (now : Nat) :
    Except ErrKind LookupRecord × Store :=
  if input.term = "" then (.error .validation, s)
  else
    match user? with
    | none => (.error .unauthorized, s)
    | some uid =>
      let r : LookupRecord :=
        { id := s.nextHistoryId
          userId := some uid
          term := input.term
          language := input.language.getD "en"
          entryId := input.entryId
          lookedAt := now
          source := input.source
          context := input.context }
      (.ok r, { s with history := s.history ++ [r], nextHistoryId := s.nextHistoryId + 1 })

/-- The listLookupHistory action handler: requireUser, then a read filtered to
the caller's userId. -/
def listLookupHistory (user? : Option String) (s : Store) :
    Except ErrKind (List LookupRecord) × Store :=
  match user? with
  | none => (.error .unauthorized, s)
  | some uid => (.ok (s.history.filter (fun r => r.userId == some uid)), s)

/-! Concrete sample data used by counterexamples and witnesses. -/

/-- A stored entry with non-default language and old timestamps. -/
def entry1 : DictionaryEntry :=
  { id := 1, term := "run", language := "fr", «lemma» := none, payload := none,
    partOfSpeech := none, fetchedAt := 5, createdAt := 5, updatedAt := 5 }

/-- A store holding exactly entry1. -/
def store1 : Store :=
  { entries := [entry1], variants := [], notes := [], history := [],
    nextEntryId := 2, nextVariantId := 1, nextNoteId := 1, nextHistoryId := 1 }

/-- The empty store. -/
def emptyStore : Store :=
  { entries := [], variants := [], notes := [], history := [],
    nextEntryId := 1, nextVariantId := 1, nextNoteId := 1, nextHistoryId := 1 }

/-- An update input addressing entry1 by id and omitting every optional field. -/
def updateRunInput : UpsertEntryInput :=
  { id := some 1, term := "run", language := none, «lemma» := none, payload := none,
    partOfSpeech := none, fetchedAt := none }

/-- An insert input (no id). -/
def insertRunInput : UpsertEntryInput :=
  { id := none, term := "run", language := none, «lemma» := none, payload := none,
    partOfSpeech := none, fetchedAt := none }

/-- An input whose id is explicitly 0 — present but falsy in JavaScript. -/
def zeroIdInput : UpsertEntryInput :=
  { id := some 0, term := "jog", language := none, «lemma» := none, payload := none,
    partOfSpeech := none, fetchedAt := none }

/-- An input whose id is 99, which resolves to nothing in store1. -/
def missingIdInput : UpsertEntryInput :=
  { id := some 99, term := "jog", language := none, «lemma» := none, payload := none,
    partOfSpeech := none, fetchedAt := none }

/-- A variant input referencing entry1. -/
def varInput : AddVariantInput := { entryId := 1, variant := "ran", variantType := none }

/-- A saveUserNote input used in concrete scenarios. -/
def noteInput1 : SaveUserNoteInput :=
  { entryId := 1, tags := some "work", note := none, exampleSentence := none,
    isStarred := none, familiarity := none }

/-- A logLookup input used in concrete scenarios. -/
def lookupInput1 : LogLookupInput :=
  { term := "run", language := none, entryId := none, source := none, context := none }

/-- A note of user u1 on entry1. -/
def noteU1 : UserWordNote :=
  { id := 1, userId := "u1", entryId := 1, tags := none, note := none,
    exampleSentence := none, isStarred := false, familiarity := .new,
    createdAt := 1, updatedAt := 1 }

/-- A note of a different user u2 on entry1. -/
def noteU2 : UserWordNote := { noteU1 with id := 2, userId := "u2" }

/-- A store holding notes of two different users. -/
def store2 : Store := { store1 with notes := [noteU1, noteU2], nextNoteId := 3 }

/-- The row saveUserNote inserts when no note exists yet for the pair. -/
def firstNote (in1 : SaveUserNoteInput) (uid : String) (t1 : Nat) (s : Store) : UserWordNote :=
  insertNoteRow (noteBaseValues in1 uid none t1) s.nextNoteId

/-- The store after that first saveUserNote call. -/
def afterFirst (in1 : SaveUserNoteInput) (uid : String) (t1 : Nat) (s : Store) : Store :=
  { s with notes := s.notes ++ [firstNote in1 uid t1 s], nextNoteId := s.nextNoteId + 1 }

/-- The merged row a second saveUserNote call for the same pair produces. -/
def secondNote (in1 in2 : SaveUserNoteInput) (uid : String) (t1 t2 : Nat) (s : Store) :
    UserWordNote :=
  setNoteRow (noteBaseValues in2 uid (some (firstNote in1 uid t1 s)) t2) (firstNote in1 uid t1 s)

/-- A second saveUserNote input providing different fields than noteInput1. -/
def noteInput2 : SaveUserNoteInput :=
  { entryId := 1, tags := none, note := some "means to jog", exampleSentence := none,
    isStarred := some true, familiarity := none }

/-- Claim C1: the spec says an update via upsertEntry keeps every omitted
field's prior value, keeps createdAt, and bumps updatedAt. Evaluating the
handler on store1 (language "fr", createdAt 5) with an input that omits
language shows the code instead resets language to "en" and overwrites
createdAt (and fetchedAt) with the write time: baseValues is built without
consulting the existing row for those columns. -/
theorem upsertEntry_update_resets_language_and_createdAt :
    (upsertEntry store1 updateRunInput 10).1 =
      .ok { id := 1, term := "run", language := "en", «lemma» := none, payload := none,
            partOfSpeech := none, fetchedAt := 10, createdAt := 10, updatedAt := 10 } ∧
    entry1.language = "fr" ∧ entry1.createdAt = 5 := by decide

/-- Claim C4: upsertEntry without id inserts a new record whose term equals
the input term and whose createdAt equals its updatedAt. -/
theorem upsertEntry_insert_fresh (s : Store) (input : UpsertEntryInput) (now : Nat)
    (hterm : input.term ≠ "") (hid : input.id = none) :
    ∃ e, upsertEntry s input now =
        (.ok e, { s with entries := s.entries ++ [e], nextEntryId := s.nextEntryId + 1 }) ∧
      e.term = input.term ∧ e.createdAt = e.updatedAt := by
  refine ⟨insertEntryRow input now s.nextEntryId, ?_, rfl, rfl⟩
  unfold upsertEntry
  rw [if_neg hterm, hid]
  simp [truthy]

/-- Witness for upsertEntry_insert_fresh at a concrete input. -/
theorem upsertEntry_insert_fresh_witness :
    insertRunInput.term ≠ "" ∧ insertRunInput.id = none ∧
    ∃ e, upsertEntry emptyStore insertRunInput 3 =
        (.ok e, { emptyStore with entries := emptyStore.entries ++ [e],
                                  nextEntryId := emptyStore.nextEntryId + 1 }) ∧
      e.term = insertRunInput.term ∧ e.createdAt = e.updatedAt :=
  ⟨by decide, rfl, upsertEntry_insert_fresh emptyStore insertRunInput 3 (by decide) rfl⟩

/-- Claim C10: an upsertEntry input with id present and equal to 0 takes the
insert path (the presence check `if (input.id)` is a truthiness test), creating
a new entry instead of failing with NOT_FOUND. -/
theorem upsertEntry_zero_id_inserts (s : Store) (input : UpsertEntryInput) (now : Nat)
    (hterm : input.term ≠ "") (hid : input.id = some 0) :
    ∃ e, upsertEntry s input now =
        (.ok e, { s with entries := s.entries ++ [e], nextEntryId := s.nextEntryId + 1 }) ∧
      e.id = s.nextEntryId ∧ e.term = input.term ∧ e.createdAt = now := by
  refine ⟨insertEntryRow input now s.nextEntryId, ?_, rfl, rfl, rfl⟩
  unfold upsertEntry
  rw [if_neg hterm, hid]
  simp [truthy]

/-- Witness for upsertEntry_zero_id_inserts: store1 has no entry with id 0,
yet the call inserts rather than failing. -/
theorem upsertEntry_zero_id_inserts_witness :
    zeroIdInput.term ≠ "" ∧ zeroIdInput.id = some 0 ∧ findEntry store1 0 = none ∧
    ∃ e, upsertEntry store1 zeroIdInput 7 =
        (.ok e, { store1 with entries := store1.entries ++ [e],
                              nextEntryId := store1.nextEntryId + 1 }) ∧
      e.id = store1.nextEntryId ∧ e.term = zeroIdInput.term ∧ e.createdAt = 7 :=
  ⟨by decide, rfl, by decide, upsertEntry_zero_id_inserts store1 zeroIdInput 7 (by decide) rfl⟩

/-- Counterexample to claim C5 as stated: the input id `some 0` is present and
resolves to no existing entry, yet upsertEntry does not fail with NOT_FOUND —
it performs an insert (the store changes). -/
theorem upsertEntry_zero_id_not_notFound :
    zeroIdInput.id = some 0 ∧ findEntry store1 0 = none ∧
    (upsertEntry store1 zeroIdInput 7).1 ≠ .error .notFound ∧
    (upsertEntry store1 zeroIdInput 7).2 ≠ store1 := by decide

/-- Claim C5 (amended to nonzero ids): an upsertEntry input whose id is present
and nonzero but resolves to no existing entry fails with NOT_FOUND and leaves
the store unchanged. -/
theorem upsertEntry_missing_id_fails (s : Store) (input : UpsertEntryInput) (now i : Nat)
    (hterm : input.term ≠ "") (hid : input.id = some i) (hnz : i ≠ 0)
    (hmiss : findEntry s i = none) :
    upsertEntry s input now = (.error .notFound, s) := by
  unfold upsertEntry
  rw [if_neg hterm, hid]
  simp [truthy, hnz, hmiss]

/-- Witness for upsertEntry_missing_id_fails: id 99 is absent from store1. -/
theorem upsertEntry_missing_id_fails_witness :
    missingIdInput.term ≠ "" ∧ missingIdInput.id = some 99 ∧ (99 : Nat) ≠ 0 ∧
    findEntry store1 99 = none ∧
    upsertEntry store1 missingIdInput 7 = (.error .notFound, store1) :=
  ⟨by decide, rfl, by decide, by decide,
    upsertEntry_missing_id_fails store1 missingIdInput 7 99 (by decide) rfl (by decide) (by decide)⟩

/-- Claim C6: addVariant fails with NOT_FOUND and performs no write when the
referenced entry does not exist; when it does exist, it always inserts a fresh
EntryVariants row (appending to the table, never updating). -/
theorem addVariant_not_found_or_insert (s : Store) (input : AddVariantInput) (now : Nat)
    (hvar : input.variant ≠ "") :
    (findEntry s input.entryId = none → addVariant s input now = (.error .notFound, s)) ∧
    (∀ e, findEntry s input.entryId = some e →
      ∃ v, addVariant s input now =
          (.ok v, { s with variants := s.variants ++ [v],
                           nextVariantId := s.nextVariantId + 1 }) ∧
        v.entryId = input.entryId ∧ v.id = s.nextVariantId) := by
  constructor
  · intro h
    unfold addVariant
    rw [if_neg hvar, h]
  · intro e h
    refine ⟨{ id := s.nextVariantId, entryId := input.entryId, variant := input.variant,
              variantType := input.variantType, createdAt := now }, ?_, rfl, rfl⟩
    unfold addVariant
    rw [if_neg hvar, h]

/-- Witness for addVariant_not_found_or_insert: inserting a variant of entry1. -/
theorem addVariant_not_found_or_insert_witness :
    varInput.variant ≠ "" ∧ findEntry store1 varInput.entryId = some entry1 ∧
    ∃ v, addVariant store1 varInput 4 =
        (.ok v, { store1 with variants := store1.variants ++ [v],
                              nextVariantId := store1.nextVariantId + 1 }) ∧
      v.entryId = varInput.entryId ∧ v.id = store1.nextVariantId :=
  ⟨by decide, by decide,
    (addVariant_not_found_or_insert store1 varInput 4 (by decide)).2 entry1 (by decide)⟩

/-- Claim C7: every operation that requires authentication — saveUserNote,
listUserNotes, logLookup, listLookupHistory — fails with UNAUTHORIZED and
leaves the store unchanged when the call context has no authenticated user. -/
theorem unauthenticated_ops_fail (s : Store) (i1 : SaveUserNoteInput) (i2 : LogLookupInput)
    (t1 t2 : Nat) :
    saveUserNote none s i1 t1 = (.error .unauthorized, s) ∧
    listUserNotes none s = (.error .unauthorized, s) ∧
    (i2.term ≠ "" → logLookup none s i2 t2 = (.error .unauthorized, s)) ∧
    listLookupHistory none s = (.error .unauthorized, s) := by
  refine ⟨rfl, rfl, ?_, rfl⟩
  intro h
  unfold logLookup
  rw [if_neg h]

/-- Witness for unauthenticated_ops_fail at concrete inputs. -/
theorem unauthenticated_ops_fail_witness :
    saveUserNote none store1 noteInput1 2 = (.error .unauthorized, store1) ∧
    listUserNotes none store1 = (.error .unauthorized, store1) ∧
    logLookup none store1 lookupInput1 2 = (.error .unauthorized, store1) ∧
    listLookupHistory none store1 = (.error .unauthorized, store1) := by
  have h := unauthenticated_ops_fail store1 noteInput1 lookupInput1 2 2
  exact ⟨h.1, h.2.1, h.2.2.1 (by decide), h.2.2.2⟩

/-- Claim C8: every note returned by listUserNotes belongs to the caller:
its userId equals the authenticated identity. -/
theorem listUserNotes_only_caller (uid : String) (s : Store) (notes : List UserWordNote)
    (h : (listUserNotes (some uid) s).1 = .ok notes) :
    ∀ n ∈ notes, n.userId = uid := by
  intro n hn
  unfold listUserNotes at h
  simp only [Except.ok.injEq] at h
  subst h
  simp [List.mem_filter] at hn
  exact hn.2

/-- Witness for listUserNotes_only_caller: a store with notes of two users,
where the caller u1 receives exactly their own note. -/
theorem listUserNotes_only_caller_witness :
    (listUserNotes (some "u1") store2).1 = .ok [noteU1] ∧
    ∀ n ∈ [noteU1], n.userId = "u1" :=
  ⟨by decide, listUserNotes_only_caller "u1" store2 [noteU1] (by decide)⟩

/-- Reapplying `a ?? _` after it already won leaves the result unchanged. -/
theorem coalesce_idem {α : Type} (a b : Option α) : coalesce a (coalesce a b) = coalesce a b := by
  cases a <;> rfl

/-- Coalescing a result against its own fallback changes nothing. -/
theorem coalesce_absorb {α : Type} (a b : Option α) : coalesce (coalesce a b) b = coalesce a b := by
  cases a <;> cases b <;> rfl

/-- Coalescing a value with itself changes nothing. -/
theorem coalesce_self {α : Type} (a : Option α) : coalesce a a = a := by
  cases a <;> rfl

/-- Reapplying `a.getD _` after it already won leaves the result unchanged. -/
theorem getD_idem {α : Type} (a : Option α) (z : α) : a.getD (a.getD z) = a.getD z := by
  cases a <;> rfl

/-- Counterexample to claim C2 as stated: applying upsertEntry's merge
computation a second time (at a later write time) to the record it produced
changes createdAt — a field other than updatedAt — so the second result does
not agree with the first on every non-updatedAt field. -/
theorem entry_merge_not_idempotent :
    (entryUpdateRow updateRunInput 1 (entryUpdateRow updateRunInput 0 entry1)).createdAt ≠
      (entryUpdateRow updateRunInput 0 entry1).createdAt := by decide

/-- Claim C2 (amended): saveUserNote's merge is idempotent except for
updatedAt — reapplying it with the same input against the record it produced
(whether that record came from the insert branch or the update branch) changes
only updatedAt. upsertEntry's merge is not: a second application additionally
refreshes createdAt and fetchedAt (the latter kept only when the input pins
it), as the counterexample shows. -/
theorem merge_reapplied (e : DictionaryEntry) (input : UpsertEntryInput)
    (ex? : Option UserWordNote) (ninput : SaveUserNoteInput) (uid : String)
    (ex : UserWordNote) (t1 t2 id1 : Nat) :
    entryUpdateRow input t2 (entryUpdateRow input t1 e) =
      { entryUpdateRow input t1 e with
        createdAt := t2, updatedAt := t2, fetchedAt := input.fetchedAt.getD t2 } ∧
    setNoteRow (noteBaseValues ninput uid
        (some (insertNoteRow (noteBaseValues ninput uid ex? t1) id1)) t2)
        (insertNoteRow (noteBaseValues ninput uid ex? t1) id1) =
      { insertNoteRow (noteBaseValues ninput uid ex? t1) id1 with updatedAt := t2 } ∧
    setNoteRow (noteBaseValues ninput uid
        (some (setNoteRow (noteBaseValues ninput uid (some ex) t1) ex)) t2)
        (setNoteRow (noteBaseValues ninput uid (some ex) t1) ex) =
      { setNoteRow (noteBaseValues ninput uid (some ex) t1) ex with updatedAt := t2 } := by
  refine ⟨?_, ?_, ?_⟩
  · simp [entryUpdateRow, coalesce_idem]
  · simp [setNoteRow, insertNoteRow, noteBaseValues, coalesce_idem, coalesce_absorb, coalesce_self, getD_idem]
  · simp [setNoteRow, noteBaseValues, coalesce_idem, coalesce_absorb, coalesce_self, getD_idem]

/-- upsertEntry never touches the LookupHistory table. -/
theorem upsertEntry_history (s : Store) (i : UpsertEntryInput) (t : Nat) :
    ((upsertEntry s i t).2).history = s.history := by
  simp only [upsertEntry]
  split
  · rfl
  · split
    · split <;> rfl
    · rfl

/-- addVariant never touches the LookupHistory table. -/
theorem addVariant_history (s : Store) (i : AddVariantInput) (t : Nat) :
    ((addVariant s i t).2).history = s.history := by
  unfold addVariant
  split
  · rfl
  · split <;> rfl

/-- saveUserNote never touches the LookupHistory table. -/
theorem saveUserNote_history (u : Option String) (s : Store) (i : SaveUserNoteInput) (t : Nat) :
    ((saveUserNote u s i t).2).history = s.history := by
  simp only [saveUserNote]
  split
  · rfl
  · split
    · rfl
    · split <;> rfl

/-- listUserNotes never touches the LookupHistory table. -/
theorem listUserNotes_history (u : Option String) (s : Store) :
    ((listUserNotes u s).2).history = s.history := by
  unfold listUserNotes
  split <;> rfl

/-- listLookupHistory performs no write at all. -/
theorem listLookupHistory_history (u : Option String) (s : Store) :
    ((listLookupHistory u s).2).history = s.history := by
  unfold listLookupHistory
  split <;> rfl

/-- logLookup either leaves the history alone (on failure) or appends one row. -/
theorem logLookup_history (u : Option String) (s : Store) (i : LogLookupInput) (t : Nat) :
    ((logLookup u s i t).2).history = s.history ∨
      ∃ r, ((logLookup u s i t).2).history = s.history ++ [r] := by
  unfold logLookup
  split
  · exact .inl rfl
  · split
    · exact .inl rfl
    · exact .inr ⟨_, rfl⟩

/-- Claim C9: a successful logLookup appends exactly one new LookupHistory row
(no identity resolution, no update of existing rows), with language defaulting
to "en" when omitted; and no operation of this core ever updates or deletes a
LookupHistory row — each either leaves the history list untouched or appends. -/
theorem logLookup_appends_one (u : String) (s : Store) (inp : LogLookupInput) (now : Nat)
    (hterm : inp.term ≠ "") :
    (∃ r, logLookup (some u) s inp now =
        (.ok r, { s with history := s.history ++ [r],
                         nextHistoryId := s.nextHistoryId + 1 }) ∧
      r.language = inp.language.getD "en" ∧ r.userId = some u ∧ r.term = inp.term ∧
      r.id = s.nextHistoryId) ∧
    (∀ i t, ((upsertEntry s i t).2).history = s.history) ∧
    (∀ i t, ((addVariant s i t).2).history = s.history) ∧
    (∀ u' i t, ((saveUserNote u' s i t).2).history = s.history) ∧
    (∀ u', ((listUserNotes u' s).2).history = s.history) ∧
    (∀ u', ((listLookupHistory u' s).2).history = s.history) ∧
    (∀ u' i t, ((logLookup u' s i t).2).history = s.history ∨
      ∃ r, ((logLookup u' s i t).2).history = s.history ++ [r]) := by
  refine ⟨⟨{ id := s.nextHistoryId, userId := some u, term := inp.term,
             language := inp.language.getD "en", entryId := inp.entryId, lookedAt := now,
             source := inp.source, context := inp.context }, ?_, rfl, rfl, rfl, rfl⟩,
          fun i t => upsertEntry_history s i t,
          fun i t => addVariant_history s i t,
          fun u' i t => saveUserNote_history u' s i t,
          fun u' => listUserNotes_history u' s,
          fun u' => listLookupHistory_history u' s,
          fun u' i t => logLookup_history u' s i t⟩
  unfold logLookup
  rw [if_neg hterm]

/-- Witness for logLookup_appends_one at concrete inputs. -/
theorem logLookup_appends_one_witness :
    lookupInput1.term ≠ "" ∧
    (∃ r, logLookup (some "u1") store1 lookupInput1 6 =
        (.ok r, { store1 with history := store1.history ++ [r],
                              nextHistoryId := store1.nextHistoryId + 1 }) ∧
      r.language = "en" ∧ r.userId = some "u1" ∧ r.term = lookupInput1.term ∧
      r.id = store1.nextHistoryId) ∧
    ((upsertEntry store1 updateRunInput 6).2).history = store1.history ∧
    ((addVariant store1 varInput 6).2).history = store1.history ∧
    ((saveUserNote (some "u1") store1 noteInput1 6).2).history = store1.history ∧
    ((listUserNotes (some "u1") store1).2).history = store1.history ∧
    ((listLookupHistory (some "u1") store1).2).history = store1.history ∧
    (((logLookup (some "u1") store1 lookupInput1 6).2).history = store1.history ∨
      ∃ r, ((logLookup (some "u1") store1 lookupInput1 6).2).history =
        store1.history ++ [r]) := by
  have h := logLookup_appends_one "u1" store1 lookupInput1 6 (by decide)
  exact ⟨by decide, h.1, h.2.1 updateRunInput 6, h.2.2.1 varInput 6,
         h.2.2.2.1 (some "u1") noteInput1 6, h.2.2.2.2.1 (some "u1"),
         h.2.2.2.2.2.1 (some "u1"), h.2.2.2.2.2.2 (some "u1") lookupInput1 6⟩

/-- Coalescing against no fallback keeps the value. -/
theorem coalesce_none {α : Type} (a : Option α) : coalesce a none = a := by
  cases a <;> rfl

/-- `(a ?? b) ?? z` resolves like nested getD. -/
theorem getD_coalesce {α : Type} (a b : Option α) (z : α) :
    (coalesce a b).getD z = a.getD (b.getD z) := by
  cases a <;> rfl

/-- Mapping a function that fixes every member is the identity. -/
theorem map_id_of_mem {α : Type} (f : α → α) (l : List α) (h : ∀ a ∈ l, f a = a) :
    l.map f = l := by
  induction l with
  | nil => rfl
  | cons x xs ih =>
    simp only [List.map_cons]
    rw [h x (List.mem_cons_self x xs), ih (fun a ha => h a (List.mem_cons_of_mem x ha))]

/-- Claim C3: two saveUserNote calls by the same authenticated user for the
same existing entry, starting from a store with no note for the pair, leave
exactly one UserWordNotes row for the (entryId, userId) pair, and that row's
fields are the union of both calls' explicitly provided fields with the second
call winning on overlap (boolean and enum fields fall back to their defaults
when neither call provides them). -/
theorem saveUserNote_twice (s : Store) (uid : String) (in1 in2 : SaveUserNoteInput)
    (t1 t2 : Nat) (e : DictionaryEntry)
    (hentry : findEntry s in1.entryId = some e)
    (heid : in2.entryId = in1.entryId)
    (hnone : s.notes.filter (pairFilter in1.entryId uid) = [])
    (hfresh : ∀ n ∈ s.notes, n.id ≠ s.nextNoteId) :
    ∃ n2 s2,
      saveUserNote (some uid) s in1 t1 =
        (.ok (firstNote in1 uid t1 s), afterFirst in1 uid t1 s) ∧
      saveUserNote (some uid) (afterFirst in1 uid t1 s) in2 t2 = (.ok n2, s2) ∧
      s2.notes.filter (pairFilter in1.entryId uid) = [n2] ∧
      s2.notes = s.notes ++ [n2] ∧
      n2.userId = uid ∧
      n2.entryId = in1.entryId ∧
      n2.tags = coalesce in2.tags in1.tags ∧
      n2.note = coalesce in2.note in1.note ∧
      n2.exampleSentence = coalesce in2.exampleSentence in1.exampleSentence ∧
      n2.isStarred = (coalesce in2.isStarred in1.isStarred).getD false ∧
      n2.familiarity = (coalesce in2.familiarity in1.familiarity).getD Familiarity.new := by
  have hfind1 : findNote s in1.entryId uid = none := by
    unfold findNote
    rw [hnone]
    rfl
  have hcall1 : saveUserNote (some uid) s in1 t1 =
      (.ok (firstNote in1 uid t1 s), afterFirst in1 uid t1 s) := by
    simp only [saveUserNote, hentry, hfind1, firstNote, afterFirst]
  have hentry2 : findEntry (afterFirst in1 uid t1 s) in2.entryId = some e := by
    rw [heid]
    exact hentry
  have hpair1 : pairFilter in1.entryId uid (firstNote in1 uid t1 s) = true := by
    simp [pairFilter, firstNote, insertNoteRow, noteBaseValues]
  have hfind2 : findNote (afterFirst in1 uid t1 s) in2.entryId uid =
      some (firstNote in1 uid t1 s) := by
    unfold findNote
    rw [heid]
    show ((s.notes ++ [firstNote in1 uid t1 s]).filter (pairFilter in1.entryId uid)).head? = _
    rw [List.filter_append, hnone, List.nil_append]
    simp [List.filter_cons, hpair1]
  have hmap : (s.notes ++ [firstNote in1 uid t1 s]).map
      (fun n => if n.id == (firstNote in1 uid t1 s).id
        then setNoteRow (noteBaseValues in2 uid (some (firstNote in1 uid t1 s)) t2) n
        else n) =
      s.notes ++ [secondNote in1 in2 uid t1 t2 s] := by
    rw [List.map_append]
    congr 1
    · apply map_id_of_mem
      intro n hmem
      have hne : n.id ≠ (firstNote in1 uid t1 s).id := by
        simpa [firstNote, insertNoteRow] using hfresh n hmem
      simp [hne]
    · simp [secondNote]
  have hcall2 : saveUserNote (some uid) (afterFirst in1 uid t1 s) in2 t2 =
      (.ok (secondNote in1 in2 uid t1 t2 s),
       { afterFirst in1 uid t1 s with notes := s.notes ++ [secondNote in1 in2 uid t1 t2 s] }) := by
    simp only [saveUserNote, hentry2, hfind2]
    rw [show (afterFirst in1 uid t1 s).notes = s.notes ++ [firstNote in1 uid t1 s] from rfl, hmap]
    rfl
  have hpair2 : pairFilter in1.entryId uid (secondNote in1 in2 uid t1 t2 s) = true := by
    simp [pairFilter, secondNote, setNoteRow, noteBaseValues, heid]
  refine ⟨secondNote in1 in2 uid t1 t2 s,
          { afterFirst in1 uid t1 s with notes := s.notes ++ [secondNote in1 in2 uid t1 t2 s] },
          hcall1, hcall2, ?_, rfl, ?_, ?_, ?_, ?_, ?_, ?_, ?_⟩
  · rw [show ({ afterFirst in1 uid t1 s with
        notes := s.notes ++ [secondNote in1 in2 uid t1 t2 s] } : Store).notes =
        s.notes ++ [secondNote in1 in2 uid t1 t2 s] from rfl]
    rw [List.filter_append, hnone, List.nil_append]
    simp [List.filter_cons, hpair2]
  · simp [secondNote, setNoteRow, noteBaseValues]
  · simp [secondNote, setNoteRow, noteBaseValues, heid]
  · simp [secondNote, firstNote, setNoteRow, insertNoteRow, noteBaseValues,
          coalesce_absorb, coalesce_none]
  · simp [secondNote, firstNote, setNoteRow, insertNoteRow, noteBaseValues,
          coalesce_absorb, coalesce_none]
  · simp [secondNote, firstNote, setNoteRow, insertNoteRow, noteBaseValues,
          coalesce_absorb, coalesce_none]
  · simp [secondNote, firstNote, setNoteRow, insertNoteRow, noteBaseValues, getD_coalesce]
  · simp [secondNote, firstNote, setNoteRow, insertNoteRow, noteBaseValues, getD_coalesce]

/-- Witness for saveUserNote_twice: user u1 saves tags first, then a note and
a star, against store1. -/
theorem saveUserNote_twice_witness :
    findEntry store1 noteInput1.entryId = some entry1 ∧
    noteInput2.entryId = noteInput1.entryId ∧
    store1.notes.filter (pairFilter noteInput1.entryId "u1") = [] ∧
    (∀ n ∈ store1.notes, n.id ≠ store1.nextNoteId) ∧
    ∃ n2 s2,
      saveUserNote (some "u1") store1 noteInput1 2 =
        (.ok (firstNote noteInput1 "u1" 2 store1), afterFirst noteInput1 "u1" 2 store1) ∧
      saveUserNote (some "u1") (afterFirst noteInput1 "u1" 2 store1) noteInput2 3 =
        (.ok n2, s2) ∧
      s2.notes.filter (pairFilter noteInput1.entryId "u1") = [n2] ∧
      s2.notes = store1.notes ++ [n2] ∧
      n2.userId = "u1" ∧
      n2.entryId = noteInput1.entryId ∧
      n2.tags = coalesce noteInput2.tags noteInput1.tags ∧
      n2.note = coalesce noteInput2.note noteInput1.note ∧
      n2.exampleSentence = coalesce noteInput2.exampleSentence noteInput1.exampleSentence ∧
      n2.isStarred = (coalesce noteInput2.isStarred noteInput1.isStarred).getD false ∧
      n2.familiarity =
        (coalesce noteInput2.familiarity noteInput1.familiarity).getD Familiarity.new :=
  ⟨by decide, rfl, by decide, by decide,
    saveUserNote_twice store1 "u1" noteInput1 noteInput2 2 3 entry1
      (by decide) rfl (by decide) (by decide)⟩

